import Mathlib

/-!
Shallow embedding of the registration/start reconciliation logic and the
session-lifecycle state machine of `mcp_router_use` (files
`client.py`, `router_client.py`, `connectors/router.py`, `config.py`).

Python dictionaries are modelled as association lists with unique keys
(uniqueness is guaranteed by Python's dict semantics and is carried as a
hypothesis where a theorem needs it).  Network I/O is modelled by passing
the router's response for each endpoint as an explicit argument;
the calls a method issues are returned as an explicit trace.
Exceptions are modelled with an explicit error component of the result.
-/

namespace Mru

/-- Association-list lookup, first match wins (Python dict lookup). -/
def sessLookup {α : Type} (n : String) : List (String × α) → Option α
  | [] => none
  | (k, v) :: rest => if k = n then some v else sessLookup n rest

/-- Deletion of a key (`del d[n]`); on a unique-key list this removes the
single entry with key `n`. -/
def eraseKey {α : Type} (n : String) (l : List (String × α)) : List (String × α) :=
  l.filter (fun p => p.1 ≠ n)

/-- Dict assignment `d[n] = v`: replace in place, else append at the end. -/
def insertKey {α : Type} (n : String) (v : α) : List (String × α) → List (String × α)
  | [] => [(n, v)]
  | (k, w) :: rest => if k = n then (k, v) :: rest else (k, w) :: insertKey n v rest

/-- `d.update(new)`: assign every pair of `new` in order. -/
def dictUpdate {α : Type} (base new : List (String × α)) : List (String × α) :=
  new.foldl (fun acc p => insertKey p.1 p.2 acc) base

/-- Keys of a dict, in insertion order. -/
def keysOf {α : Type} (l : List (String × α)) : List String :=
  l.map Prod.fst

/-- A Python exception surfaced to the caller. -/
inductive PyError where
  | valueError (msg : String)
  | exception (msg : String)
deriving Repr, DecidableEq

/-- A server entry of the `mcpServers` configuration section: the fields the
core reads.  `Option` marks a key that may be absent from the dict. -/
structure ServerConfig where
  command : Option String
  args : Option (List String)
  env : List (String × String)
  server_id : Option String
  url : Option String
  auth_token : Option String
  headers : Option (List (String × String))
deriving Repr, DecidableEq

/-- The `mcpRouter` configuration section. -/
structure RouterSection where
  router_url : Option String
  auth_token : Option String
  headers : Option (List (String × String))
deriving Repr, DecidableEq

/-- The whole configuration dict: `mcpRouter` and `mcpServers` sections,
each possibly absent. -/
structure Config where
  mcpRouter : Option RouterSection
  mcpServers : Option (List (String × ServerConfig))
deriving Repr, DecidableEq

/-- `config.get("mcpServers", {})`. -/
def Config.serversD (c : Config) : List (String × ServerConfig) :=
  c.mcpServers.getD []

/-- `config["mcpServers"][name]["server_id"] = sid`. -/
def Config.setServerId (c : Config) (name : String) (sid : Option String) : Config :=
  let upd := (c.serversD).map (fun p =>
    if p.1 = name then (p.1, { p.2 with server_id := sid }) else p)
  { c with mcpServers := some upd }

/-- Result of one HTTP request: a transport error (`aiohttp.ClientError`)
or a response with a status code and a parsed body. -/
inductive HttpResult (β : Type) where
  | transportError : HttpResult β
  | response (status : Nat) (body : β) : HttpResult β
deriving Repr, DecidableEq

/-- One entry of the `results` list of a registration response. -/
structure RegEntry where
  name : String
  success : Bool
deriving Repr, DecidableEq

/-- Body of a registration response: the `results` key may be absent. -/
structure RegBody where
  results : Option (List RegEntry)
deriving Repr, DecidableEq

/-- Body of a start response: the truthiness of its `success` field. -/
structure StartBody where
  success : Bool
deriving Repr, DecidableEq

/-- One entry of the router's server listing (`GET /api/servers`). -/
structure RemoteServer where
  id : Option String
  status : Option String
deriving Repr, DecidableEq

/-- The router's responses for one client-method invocation, one per
endpoint (each endpoint is called at most once per invocation). -/
structure NetEnv where
  reg : HttpResult RegBody
  start : HttpResult StartBody
  listing : HttpResult (List RemoteServer)
deriving Repr, DecidableEq

/-- The registration payload sent to `POST /api/servers`:
either the `{name: {command, args, env}}` shape built for command-based
configs, or a pre-shaped `{name: config}` wrapper (router-client variant). -/
inductive RegPayload where
  | command (name : String) (cmd : String) (args : List String)
      (env : List (String × String))
  | preShaped (name : String) (cfg : ServerConfig)
deriving Repr, DecidableEq

/-- A network call issued to the router, in order of issue. -/
inductive RouterCall where
  | register (payload : RegPayload)
  | start (server_id : String)
  | listServers
deriving Repr, DecidableEq

/-- Modelled from the spec: `connectors/http.py` and `connectors/base.py`
are not in the sources; an `HttpConnector` is represented by its
constructor arguments as used in `config.py` (`base_url`, `headers`,
`auth_token`), and an `MCPRouterConnector` by the fields its `__init__` in
`connectors/router.py` computes. -/
inductive Connector where
  | http (base_url : String) (headers : List (String × String))
      (auth_token : Option String)
  | router (router_url : String) (server_id : Option String)
      (auth_token : Option String) (headers : List (String × String))
      (mcp_endpoint : String)
deriving Repr, DecidableEq

/-- The server id a connector is bound to (an `HttpConnector` has none). -/
def Connector.serverId : Connector → Option String
  | .http _ _ _ => none
  | .router _ sid _ _ _ => sid

/-- The endpoint URL a connector opens its stream against. -/
def Connector.endpoint : Connector → String
  | .http u _ _ => u
  | .router _ _ _ _ e => e

/-- `router_url.rstrip("/")`. -/
def rstripSlash (s : String) : String :=
  String.mk ((s.toList.reverse.dropWhile (· = '/')).reverse)

/-- `MCPRouterConnector.__init__` from `connectors/router.py`. -/
def mkRouterConnector (router_url : String) (server_id : Option String)
    (auth_token : Option String) (headers : Option (List (String × String))) :
    Connector :=
  let ru := rstripSlash router_url
  let hs := headers.getD []
  let hs := match auth_token with
    | some t => insertKey "Authorization" ("Bearer " ++ t) hs
    | none => hs
  Connector.router ru server_id auth_token hs (ru ++ "/mcp")

/-- Modelled from the spec: `session.py` is not in the sources.  A session
holds the connector it is bound to; whether its external `disconnect()`
raises when called is supplied as the oracle flag `disconnectOk`. -/
structure MCPSession where
  connector : Connector
  disconnectOk : Bool
deriving Repr, DecidableEq

/-- State of an `MCPClient` (`client.py`): the configuration dict, the
session map, the active-names list, and the router URL / headers computed
by `__init__`. -/
structure MCPClient where
  config : Config
  sessions : List (String × MCPSession)
  active_sessions : List String
  router_url : Option String
  router_headers : List (String × String)
deriving Repr, DecidableEq

/-- `MCPClient.__init__` on an already-parsed configuration dict. -/
def MCPClient.init (cfg : Config) : MCPClient :=
  let rsec := cfg.mcpRouter
  let url := rsec.bind (fun s => s.router_url)
  let hdrs := match rsec with
    | none => []
    | some s =>
      let base := match s.auth_token with
        | some t => [("Authorization", "Bearer " ++ t)]
        | none => []
      dictUpdate base (s.headers.getD [])
  ⟨cfg, [], [], url, hdrs⟩

/-- `MCPClient.add_server`: raises `ValueError` on a duplicate name.  The
`mcpServers` section is materialised (set to `{}`) before the duplicate
check, as in the source. -/
def MCPClient.add_server (c : MCPClient) (server_name : String)
    (server_config : ServerConfig) : MCPClient × Option PyError :=
  let c := { c with config := { c.config with mcpServers := some c.config.serversD } }
  if (sessLookup server_name c.config.serversD).isSome then
    (c, some (.valueError "Server already exists"))
  else
    ({ c with config :=
        { c.config with mcpServers := some (insertKey server_name server_config c.config.serversD) } },
     none)

/-- `MCPClient.remove_server`: raises `ValueError` if absent; removes the
name from the active list (but not from the session map). -/
def MCPClient.remove_server (c : MCPClient) (server_name : String) :
    MCPClient × Option PyError :=
  match c.config.mcpServers with
  | none => (c, some (.valueError "Server not found"))
  | some servers =>
    if (sessLookup server_name servers).isNone then
      (c, some (.valueError "Server not found"))
    else
      ({ c with
          active_sessions := c.active_sessions.erase server_name,
          config := { c.config with mcpServers := some (eraseKey server_name servers) } },
       none)

/-- The loop of `register_server_with_router` over `result["results"]`:
the `name` of the first entry whose `success` flag is truthy. -/
def findFirstSuccess : List RegEntry → Option String
  | [] => none
  | e :: rest => if e.success then some e.name else findFirstSuccess rest

/-- `MCPClient.register_server_with_router` (`client.py` 196-262), on the
mutable part it touches (the configuration) plus the client-level inputs
it reads (the router URL).  Returns the updated configuration, the trace
of issued calls, and either a raised error or the optional resolved id. -/
def registerCore (router_url : Option String) (cfg : Config)
    (server_name : String) (resp : HttpResult RegBody) :
    Config × List RouterCall × Except PyError (Option String) :=
  match router_url with
  | none => (cfg, [], .error (.valueError "No MCP Router URL configured"))
  | some _ =>
    match sessLookup server_name cfg.serversD with
    | none => (cfg, [], .error (.valueError "Server not found in config"))
    | some sc =>
      match sc.command, sc.args with
      | some cmd, some args =>
        let payload := RegPayload.command server_name cmd args sc.env
        match resp with
        | .transportError => (cfg, [.register payload], .ok none)
        | .response st body =>
          if st = 200 ∨ st = 201 then
            match body.results with
            | some rs =>
              if rs.length > 0 then
                match findFirstSuccess rs with
                | some sid =>
                  (cfg.setServerId server_name (some sid),
                   [.register payload], .ok (some sid))
                | none => (cfg, [.register payload], .ok none)
              else (cfg, [.register payload], .ok none)
            | none => (cfg, [.register payload], .ok none)
          else (cfg, [.register payload], .ok none)
      | _, _ =>
        (cfg, [], .error (.valueError
          "URL-based server configurations are not supported for registration"))

/-- `MCPClient.register_server_with_router` as a state transformer on the
client (only the configuration can change). -/
def MCPClient.register_server_with_router (c : MCPClient) (server_name : String)
    (resp : HttpResult RegBody) :
    MCPClient × List RouterCall × Except PyError (Option String) :=
  let r := registerCore c.router_url c.config server_name resp
  ({ c with config := r.1 }, r.2.1, r.2.2)

/-- `MCPClient.start_server_in_router` (`client.py` 264-309); it never
mutates the client, so only the calls and the outcome are returned. -/
def startCore (router_url : Option String) (cfg : Config)
    (server_name : String) (resp : HttpResult StartBody) :
    List RouterCall × Except PyError Bool :=
  match router_url with
  | none => ([], .error (.valueError "No MCP Router URL configured"))
  | some _ =>
    match sessLookup server_name cfg.serversD with
    | none => ([], .error (.valueError "Server not found in config"))
    | some sc =>
      match sc.server_id with
      | none => ([], .ok false)
      | some sid =>
        match resp with
        | .transportError => ([.start sid], .ok false)
        | .response st body => ([.start sid], .ok (st = 200 && body.success))

/-- `MCPClient.start_server_in_router` as a state transformer. -/
def MCPClient.start_server_in_router (c : MCPClient) (server_name : String)
    (resp : HttpResult StartBody) :
    MCPClient × List RouterCall × Except PyError Bool :=
  (c, startCore c.router_url c.config server_name resp)

/-- `MCPClient.get_router_servers` (`client.py` 311-335). -/
def listCore (router_url : Option String)
    (resp : HttpResult (List RemoteServer)) :
    List RouterCall × Except PyError (List RemoteServer) :=
  match router_url with
  | none => ([], .error (.valueError "No MCP Router URL configured"))
  | some _ =>
    match resp with
    | .transportError => ([.listServers], .ok [])
    | .response st body => ([.listServers], .ok (if st = 200 then body else []))

/-- `MCPClient.get_router_servers` as a state transformer. -/
def MCPClient.get_router_servers (c : MCPClient)
    (resp : HttpResult (List RemoteServer)) :
    MCPClient × List RouterCall × Except PyError (List RemoteServer) :=
  (c, listCore c.router_url resp)


/-- The loop of `create_session` over the remote list: the first entry
whose `id` equals the cached id (the loop breaks at the first match). -/
def findRemote (sid : String) : List RemoteServer → Option RemoteServer
  | [] => none
  | r :: rest => if r.id = some sid then some r else findRemote sid rest

/-- The `if auto_register:` block of `MCPClient.create_session`
(`client.py` 382-408): register+start for a descriptor with no cached id,
or list-reconciliation (start if not online; full register+start when the
cached id is not found remotely) for a descriptor with one.  Threads the
configuration, the only state these calls can change. -/
def autoRegConfig (router_url : Option String) (cfg : Config)
    (server_name : String) (server_config : ServerConfig)
    (auto_register : Bool) (env : NetEnv) :
    Config × List RouterCall × Except PyError Unit :=
  if auto_register then
    match server_config.server_id with
    | none =>
      let r1 := registerCore router_url cfg server_name env.reg
      match r1.2.2 with
      | .error e => (r1.1, r1.2.1, .error e)
      | .ok none => (r1.1, r1.2.1, .ok ())
      | .ok (some _) =>
        let r2 := startCore router_url r1.1 server_name env.start
        match r2.2 with
        | .error e => (r1.1, r1.2.1 ++ r2.1, .error e)
        | .ok _ => (r1.1, r1.2.1 ++ r2.1, .ok ())
    | some sid =>
      let r1 := listCore router_url env.listing
      match r1.2 with
      | .error e => (cfg, r1.1, .error e)
      | .ok lst =>
        match findRemote sid lst with
        | some rsv =>
          if rsv.status ≠ some "online" then
            let r2 := startCore router_url cfg server_name env.start
            match r2.2 with
            | .error e => (cfg, r1.1 ++ r2.1, .error e)
            | .ok _ => (cfg, r1.1 ++ r2.1, .ok ())
          else (cfg, r1.1, .ok ())
        | none =>
          let r2 := registerCore router_url cfg server_name env.reg
          match r2.2.2 with
          | .error e => (r2.1, r1.1 ++ r2.2.1, .error e)
          | .ok none => (r2.1, r1.1 ++ r2.2.1, .ok ())
          | .ok (some _) =>
            let r3 := startCore router_url r2.1 server_name env.start
            match r3.2 with
            | .error e => (r2.1, r1.1 ++ r2.2.1 ++ r3.1, .error e)
            | .ok _ => (r2.1, r1.1 ++ r2.2.1 ++ r3.1, .ok ())
  else (cfg, [], .ok ())

/-- Appends a freshly created session: store in the session map, then
append the name to the active list unless already present
(`client.py` 425-430). -/
def MCPClient.finishSession (c : MCPClient) (server_name : String)
    (sess : MCPSession) (ks : List RouterCall)
    (auto_init initOk : Bool) :
    MCPClient × List RouterCall × Except PyError MCPSession :=
  if auto_init && !initOk then
    (c, ks, .error (.exception "initialize raised"))
  else
    ({ c with
        sessions := insertKey server_name sess c.sessions,
        active_sessions :=
          if server_name ∈ c.active_sessions then c.active_sessions
          else c.active_sessions ++ [server_name] },
     ks, .ok sess)

/-- `MCPClient.create_session` (`client.py` 337-432).  `initOk` is the
oracle for whether the external `session.initialize()` returns normally;
`disconnectOk` is the created session's future disconnect behaviour.
The connector is built by `create_connector_from_config` on the
`{url, headers, auth_token}` dict, which always takes the `url` branch
and yields a plain `HttpConnector`. -/
def MCPClient.create_session (c : MCPClient) (server_name : String)
    (auto_init auto_register : Bool) (env : NetEnv)
    (initOk disconnectOk : Bool) :
    MCPClient × List RouterCall × Except PyError MCPSession :=
  if c.config.serversD.isEmpty then
    (c, [], .error (.valueError "No MCP servers defined in config"))
  else
    match sessLookup server_name c.config.serversD with
    | none => (c, [], .error (.valueError "Server not found in config"))
    | some server_config =>
      match c.router_url with
      | none => (c, [], .error (.valueError "No MCP Router URL configured"))
      | some ru =>
        let ph := autoRegConfig c.router_url c.config server_name
          server_config auto_register env
        let c1 : MCPClient := { c with config := ph.1 }
        match ph.2.2 with
        | .error e => (c1, ph.2.1, .error e)
        | .ok _ =>
          let connector := Connector.http (ru ++ "/mcp") c1.router_headers
            (c1.config.mcpRouter.bind (fun s => s.auth_token))
          c1.finishSession server_name ⟨connector, disconnectOk⟩ ph.2.1
            auto_init initOk

/-- `MCPClient.close_session` (`client.py` 434-445): disconnect is awaited
before the deletions, with no try/finally, so a raising disconnect
propagates before any removal happens. -/
def MCPClient.close_session (c : MCPClient) (server_name : String) :
    MCPClient × Option PyError :=
  match sessLookup server_name c.sessions with
  | none => (c, none)
  | some s =>
    if s.disconnectOk then
      ({ c with
          sessions := eraseKey server_name c.sessions,
          active_sessions := c.active_sessions.erase server_name }, none)
    else (c, some (.exception "disconnect raised"))

/-- The loop of `MCPClient.close_all_sessions` over a snapshot of the
session names: per name, try disconnect (collecting a failure), and in the
`finally` block remove the name from the session map and the active list.
(The `none` lookup branch is unreachable for a snapshot taken from the
dict, whose keys are unique.) -/
def closeAllGo : List String → List (String × MCPSession) → List String →
    List String → List (String × MCPSession) × List String × List String
  | [], sess, act, errs => (sess, act, errs)
  | n :: rest, sess, act, errs =>
    let errs₁ := match sessLookup n sess with
      | some s => if s.disconnectOk then errs else errs ++ [n]
      | none => errs
    closeAllGo rest (eraseKey n sess) (act.erase n) errs₁

/-- `MCPClient.close_all_sessions` (`client.py` 447-468): raises one
aggregate `Exception` after the loop iff any disconnect failed. -/
def MCPClient.close_all_sessions (c : MCPClient) : MCPClient × Option PyError :=
  let r := closeAllGo (keysOf c.sessions) c.sessions c.active_sessions []
  ({ c with sessions := r.1, active_sessions := r.2.1 },
   if r.2.2.isEmpty then none else some (.exception "Disconnect failed"))

/-- `MCPRouterConnector.register_server` (`connectors/router.py` 181-229).
The payload the router client passes is always a single-key wrapper dict,
so the "command at top level" branch of the method is not taken and the
payload is sent as-is.  Returns the issued calls and the resolved id. -/
def connectorRegister (payload : RegPayload) (resp : HttpResult RegBody) :
    List RouterCall × Option String :=
  ([.register payload],
   match resp with
   | .transportError => none
   | .response st body =>
     if st = 200 ∨ st = 201 then
       match body.results with
       | some rs => if rs.length > 0 then findFirstSuccess rs else none
       | none => none
     else none)

/-- `MCPRouterConnector._start_server` (`connectors/router.py` 150-179). -/
def connectorStart (sid : String) (resp : HttpResult StartBody) :
    List RouterCall × Bool :=
  ([.start sid],
   match resp with
   | .transportError => false
   | .response st body => st = 200 && body.success)

/-- `create_connector_from_config` (`config.py`): a config with a `url`
key yields an `HttpConnector`; anything else raises `ValueError`. -/
def create_connector_from_config (cfg : ServerConfig) : Except PyError Connector :=
  match cfg.url with
  | some u => .ok (.http u (cfg.headers.getD []) cfg.auth_token)
  | none => .error (.valueError "Cannot determine connector type from config")

/-- Python `a or b` on an optional dict value: `None` and the empty dict
are both falsy. -/
def pyOrHeaders (a b : Option (List (String × String))) :
    Option (List (String × String)) :=
  match a with
  | some l => if l.isEmpty then b else some l
  | none => b

/-- State of an `MCPRouterClient` (`router_client.py`). -/
structure MCPRouterClient where
  config : Config
  sessions : List (String × MCPSession)
  active_sessions : List String
  router_connector : Option Connector
deriving Repr, DecidableEq

/-- `MCPRouterClient.__init__`: the router connector is built iff the
`mcpRouter` section is present, non-empty, and carries a `router_url`. -/
def MCPRouterClient.init (cfg : Config) : MCPRouterClient :=
  let rc := match cfg.mcpRouter with
    | some s =>
      match s.router_url with
      | some u => some (mkRouterConnector u none s.auth_token s.headers)
      | none => none
    | none => none
  ⟨cfg, [], [], rc⟩

/-- `MCPRouterClient.register_server_with_router` (`router_client.py`
119-169), on the state it can change (the configuration).  A command-based
config is shaped into `{name: {command, args, env}}`, any other config is
wrapped as-is (pre-shaped); the resolved id is cached onto the descriptor
only when registration succeeded.  `hasConnector` is whether
`self.router_connector` is set. -/
def routerRegisterCore (hasConnector : Bool) (cfg : Config)
    (server_name : String) (resp : HttpResult RegBody) :
    Config × List RouterCall × Except PyError (Option String) :=
  if !hasConnector then
    (cfg, [], .error (.valueError "No MCP Router connector configured"))
  else
    match sessLookup server_name cfg.serversD with
    | none => (cfg, [], .error (.valueError "Server not found in config"))
    | some sc =>
      let payload := match sc.command, sc.args with
        | some cmd, some args => RegPayload.command server_name cmd args sc.env
        | _, _ => RegPayload.preShaped server_name sc
      let r := connectorRegister payload resp
      match r.2 with
      | some sid =>
        (cfg.setServerId server_name (some sid), r.1, .ok (some sid))
      | none => (cfg, r.1, .ok none)

/-- `MCPRouterClient.register_server_with_router` as a state transformer. -/
def MCPRouterClient.register_server_with_router (c : MCPRouterClient)
    (server_name : String) (resp : HttpResult RegBody) :
    MCPRouterClient × List RouterCall × Except PyError (Option String) :=
  let r := routerRegisterCore c.router_connector.isSome c.config server_name resp
  ({ c with config := r.1 }, r.2.1, r.2.2)

/-- `MCPRouterClient.start_server_in_router` (`router_client.py` 171-201):
registers first when no id is cached (which may mutate the configuration),
then calls the connector's start. -/
def routerStartCore (hasConnector : Bool) (cfg : Config)
    (server_name : String) (env : NetEnv) :
    Config × List RouterCall × Except PyError Bool :=
  if !hasConnector then
    (cfg, [], .error (.valueError "No MCP Router connector configured"))
  else
    match sessLookup server_name cfg.serversD with
    | none => (cfg, [], .error (.valueError "Server not found in config"))
    | some sc =>
      match sc.server_id with
      | some sid =>
        let s := connectorStart sid env.start
        (cfg, s.1, .ok s.2)
      | none =>
        let r := routerRegisterCore hasConnector cfg server_name env.reg
        match r.2.2 with
        | .error e => (r.1, r.2.1, .error e)
        | .ok none => (r.1, r.2.1, .ok false)
        | .ok (some sid) =>
          let s := connectorStart sid env.start
          (r.1, r.2.1 ++ s.1, .ok s.2)

/-- `MCPRouterClient.start_server_in_router` as a state transformer. -/
def MCPRouterClient.start_server_in_router (c : MCPRouterClient)
    (server_name : String) (env : NetEnv) :
    MCPRouterClient × List RouterCall × Except PyError Bool :=
  let r := routerStartCore c.router_connector.isSome c.config server_name env
  ({ c with config := r.1 }, r.2.1, r.2.2)

/-- The `if auto_register and not server_id:` block of
`MCPRouterClient.create_session` (`router_client.py` 256-260): register,
and on success start (the start result is ignored); the local `server_id`
variable ends up holding the id resolved by registration. -/
def routerAutoRegConfig (hasConnector : Bool) (cfg : Config)
    (server_name : String) (server_config : ServerConfig)
    (auto_register : Bool) (env : NetEnv) :
    Config × List RouterCall × Except PyError (Option String) :=
  if auto_register && server_config.server_id.isNone then
    let r1 := routerRegisterCore hasConnector cfg server_name env.reg
    match r1.2.2 with
    | .error e => (r1.1, r1.2.1, .error e)
    | .ok none => (r1.1, r1.2.1, .ok none)
    | .ok (some sid) =>
      let r2 := routerStartCore hasConnector r1.1 server_name env
      match r2.2.2 with
      | .error e => (r2.1, r1.2.1 ++ r2.2.1, .error e)
      | .ok _ => (r2.1, r1.2.1 ++ r2.2.1, .ok (some sid))
  else (cfg, [], .ok server_config.server_id)

/-- Stores a freshly created session and appends the name to the active
list unless already present (`router_client.py` 281-292). -/
def MCPRouterClient.finishSession (c : MCPRouterClient) (server_name : String)
    (sess : MCPSession) (ks : List RouterCall)
    (auto_init initOk : Bool) :
    MCPRouterClient × List RouterCall × Except PyError MCPSession :=
  if auto_init && !initOk then
    (c, ks, .error (.exception "initialize raised"))
  else
    ({ c with
        sessions := insertKey server_name sess c.sessions,
        active_sessions :=
          if server_name ∈ c.active_sessions then c.active_sessions
          else c.active_sessions ++ [server_name] },
     ks, .ok sess)

/-- `MCPRouterClient.create_session` (`router_client.py` 217-292). -/
def MCPRouterClient.create_session (c : MCPRouterClient) (server_name : String)
    (auto_init auto_register : Bool) (env : NetEnv)
    (initOk disconnectOk : Bool) :
    MCPRouterClient × List RouterCall × Except PyError MCPSession :=
  if c.config.serversD.isEmpty then
    (c, [], .error (.valueError "No MCP servers defined in config"))
  else
    match sessLookup server_name c.config.serversD with
    | none => (c, [], .error (.valueError "Server not found in config"))
    | some server_config =>
      match c.router_connector with
      | some _ =>
        let reg := routerAutoRegConfig true c.config server_name
          server_config auto_register env
        let c1 : MCPRouterClient := { c with config := reg.1 }
        match reg.2.2 with
        | .error e => (c1, reg.2.1, .error e)
        | .ok sid =>
          match c1.config.mcpRouter.bind (fun s => s.router_url) with
          | some u =>
            let tok := match server_config.auth_token with
              | some t => some t
              | none => c1.config.mcpRouter.bind (fun s => s.auth_token)
            let hs := pyOrHeaders server_config.headers
              (c1.config.mcpRouter.bind (fun s => s.headers))
            c1.finishSession server_name
              ⟨mkRouterConnector u sid tok hs, disconnectOk⟩ reg.2.1
              auto_init initOk
          | none =>
            match create_connector_from_config server_config with
            | .error e => (c1, reg.2.1, .error e)
            | .ok connector =>
              c1.finishSession server_name ⟨connector, disconnectOk⟩ reg.2.1
                auto_init initOk
      | none =>
        match create_connector_from_config server_config with
        | .error e => (c, [], .error e)
        | .ok connector =>
          c.finishSession server_name ⟨connector, disconnectOk⟩ []
            auto_init initOk

/-- `MCPRouterClient.close_session` (`router_client.py` 348-377): missing
session is a logged no-op; disconnect runs in a `try` whose `except`
swallows the exception and whose `finally` removes the name from the
session map and the active list — it never raises. -/
def MCPRouterClient.close_session (c : MCPRouterClient) (server_name : String) :
    MCPRouterClient × Option PyError :=
  match sessLookup server_name c.sessions with
  | none => (c, none)
  | some _ =>
    ({ c with
        sessions := eraseKey server_name c.sessions,
        active_sessions := c.active_sessions.erase server_name }, none)

/-- The loop of `MCPRouterClient.close_all_sessions` over a snapshot of
session names, calling `close_session` for each. -/
def routerCloseAllGo : List String → MCPRouterClient → MCPRouterClient
  | [], c => c
  | n :: rest, c => routerCloseAllGo rest (c.close_session n).1

/-- `MCPRouterClient.close_all_sessions` (`router_client.py` 379-401):
failures are only logged, never re-raised (and `close_session` itself
never raises), so the aggregate error list is always empty. -/
def MCPRouterClient.close_all_sessions (c : MCPRouterClient) :
    MCPRouterClient × Option PyError :=
  (routerCloseAllGo (keysOf c.sessions) c, none)

/-- One client-facade operation, with the oracles its run consumes. -/
inductive ClientOp where
  | addServer (name : String) (cfg : ServerConfig)
  | removeServer (name : String)
  | createSession (name : String) (auto_init auto_register : Bool)
      (env : NetEnv) (initOk disconnectOk : Bool)
  | closeSession (name : String)
  | closeAll
deriving Repr, DecidableEq

/-- The state after one operation (the state is kept whether or not the
operation raised, as the Python object survives the exception). -/
def MCPClient.step (c : MCPClient) : ClientOp → MCPClient
  | .addServer n cfg => (c.add_server n cfg).1
  | .removeServer n => (c.remove_server n).1
  | .createSession n ai ar env iOk dOk =>
      (c.create_session n ai ar env iOk dOk).1
  | .closeSession n => (c.close_session n).1
  | .closeAll => c.close_all_sessions.1

/-- The state after a sequence of operations from a fresh client. -/
def MCPClient.run (cfg : Config) (ops : List ClientOp) : MCPClient :=
  ops.foldl MCPClient.step (MCPClient.init cfg)

/-- Well-formedness of the session bookkeeping: session-map keys unique
(Python dict), active list duplicate-free, active list ⊆ session keys. -/
def WF (c : MCPClient) : Prop :=
  (keysOf c.sessions).Nodup ∧ c.active_sessions.Nodup ∧
    ∀ a ∈ c.active_sessions, a ∈ keysOf c.sessions

/-! ### Association-list lemmas -/

theorem keysOf_cons {α : Type} (k : String) (w : α) (rest : List (String × α)) :
    keysOf ((k, w) :: rest) = k :: keysOf rest := rfl

theorem sessLookup_cons {α : Type} (n k : String) (w : α)
    (rest : List (String × α)) :
    sessLookup n ((k, w) :: rest) = if k = n then some w else sessLookup n rest := rfl

theorem eraseKey_cons {α : Type} (n k : String) (w : α)
    (rest : List (String × α)) :
    eraseKey n ((k, w) :: rest) =
      if k = n then eraseKey n rest else (k, w) :: eraseKey n rest := by
  by_cases h : k = n <;> simp [eraseKey, List.filter_cons, h]

theorem insertKey_cons {α : Type} (n k : String) (v w : α)
    (rest : List (String × α)) :
    insertKey n v ((k, w) :: rest) =
      if k = n then (k, v) :: rest else (k, w) :: insertKey n v rest := rfl

theorem sessLookup_eraseKey_self {α : Type} (n : String) (l : List (String × α)) :
    sessLookup n (eraseKey n l) = none := by
  induction l with
  | nil => rfl
  | cons p rest ih =>
    obtain ⟨k, w⟩ := p
    rw [eraseKey_cons]
    by_cases h : k = n
    · rw [if_pos h]; exact ih
    · rw [if_neg h, sessLookup_cons, if_neg h]; exact ih

theorem sessLookup_eraseKey_ne {α : Type} {m n : String} (h : m ≠ n)
    (l : List (String × α)) :
    sessLookup m (eraseKey n l) = sessLookup m l := by
  induction l with
  | nil => rfl
  | cons p rest ih =>
    obtain ⟨k, w⟩ := p
    rw [eraseKey_cons]
    by_cases hp : k = n
    · have hkm : k ≠ m := by rw [hp]; exact fun hnm => h hnm.symm
      rw [if_pos hp, ih, sessLookup_cons, if_neg hkm]
    · rw [if_neg hp, sessLookup_cons, sessLookup_cons]
      by_cases hm : k = m
      · rw [if_pos hm, if_pos hm]
      · rw [if_neg hm, if_neg hm]; exact ih

theorem sessLookup_isSome_iff_mem_keys {α : Type} (n : String)
    (l : List (String × α)) :
    (sessLookup n l).isSome ↔ n ∈ keysOf l := by
  induction l with
  | nil => simp [sessLookup, keysOf]
  | cons p rest ih =>
    obtain ⟨k, w⟩ := p
    rw [sessLookup_cons, keysOf_cons, List.mem_cons]
    by_cases h : k = n
    · simp [h]
    · rw [if_neg h, ih]
      constructor
      · exact fun hm => Or.inr hm
      · rintro (hm | hm)
        · exact absurd hm.symm h
        · exact hm

theorem sessLookup_mem {α : Type} {n : String} {v : α} {l : List (String × α)}
    (h : sessLookup n l = some v) : (n, v) ∈ l := by
  induction l with
  | nil => simp [sessLookup] at h
  | cons p rest ih =>
    obtain ⟨k, w⟩ := p
    rw [sessLookup_cons] at h
    by_cases hp : k = n
    · rw [if_pos hp] at h
      injection h with h
      subst hp; subst h
      exact List.mem_cons_self _ _
    · rw [if_neg hp] at h
      exact List.mem_cons_of_mem _ (ih h)

theorem mem_sessLookup {α : Type} {n : String} {v : α} {l : List (String × α)}
    (hnd : (keysOf l).Nodup) (h : (n, v) ∈ l) : sessLookup n l = some v := by
  induction l with
  | nil => simp at h
  | cons p rest ih =>
    obtain ⟨k, w⟩ := p
    rw [keysOf_cons, List.nodup_cons] at hnd
    rcases List.mem_cons.mp h with h1 | h1
    · rw [← h1]; simp [sessLookup]
    · have hne : k ≠ n := by
        intro he
        apply hnd.1
        have : (n, v).1 ∈ List.map Prod.fst rest := List.mem_map_of_mem Prod.fst h1
        rw [he]
        exact this
      rw [sessLookup_cons, if_neg hne]
      exact ih hnd.2 h1

theorem keysOf_eraseKey {α : Type} (n : String) (l : List (String × α)) :
    keysOf (eraseKey n l) = (keysOf l).filter (fun a => a ≠ n) := by
  induction l with
  | nil => rfl
  | cons p rest ih =>
    obtain ⟨k, w⟩ := p
    rw [eraseKey_cons, keysOf_cons]
    by_cases h : k = n
    · rw [if_pos h, ih]
      simp [List.filter_cons, h]
    · rw [if_neg h, keysOf_cons, ih]
      simp [List.filter_cons, h]

theorem mem_keys_insertKey {α : Type} (a n : String) (v : α)
    (l : List (String × α)) :
    a ∈ keysOf (insertKey n v l) ↔ a ∈ keysOf l ∨ a = n := by
  induction l with
  | nil => simp [insertKey, keysOf]
  | cons p rest ih =>
    obtain ⟨k, w⟩ := p
    rw [insertKey_cons]
    by_cases h : k = n
    · subst h
      rw [if_pos rfl]
      simp only [keysOf_cons, List.mem_cons]
      tauto
    · rw [if_neg h]
      simp only [keysOf_cons, List.mem_cons]
      rw [ih]
      tauto

theorem nodup_keys_insertKey {α : Type} (n : String) (v : α)
    {l : List (String × α)} (h : (keysOf l).Nodup) :
    (keysOf (insertKey n v l)).Nodup := by
  induction l with
  | nil => simp [insertKey, keysOf]
  | cons p rest ih =>
    obtain ⟨k, w⟩ := p
    rw [keysOf_cons, List.nodup_cons] at h
    rw [insertKey_cons]
    by_cases hp : k = n
    · subst hp
      rw [if_pos rfl, keysOf_cons, List.nodup_cons]
      exact ⟨h.1, h.2⟩
    · have hrec := ih h.2
      rw [if_neg hp, keysOf_cons, List.nodup_cons]
      refine ⟨?_, hrec⟩
      intro hmem
      rcases (mem_keys_insertKey k n v rest).mp hmem with h1 | h1
      · exact h.1 h1
      · exact hp h1

/-! ### Behaviour lemmas for the embedded operations -/

theorem eraseKey_of_not_mem {α : Type} {n : String} {l : List (String × α)}
    (h : n ∉ keysOf l) : eraseKey n l = l := by
  induction l with
  | nil => rfl
  | cons p rest ih =>
    obtain ⟨k, w⟩ := p
    rw [keysOf_cons, List.mem_cons] at h
    push_neg at h
    rw [eraseKey_cons, if_neg (fun he => h.1 he.symm), ih h.2]

theorem nodup_keys_eraseKey {α : Type} (n : String) {l : List (String × α)}
    (h : (keysOf l).Nodup) : (keysOf (eraseKey n l)).Nodup := by
  rw [keysOf_eraseKey]
  exact h.filter _

theorem mem_keys_eraseKey {α : Type} {a n : String} {l : List (String × α)} :
    a ∈ keysOf (eraseKey n l) ↔ a ∈ keysOf l ∧ a ≠ n := by
  rw [keysOf_eraseKey, List.mem_filter]
  simp

/-- `findFirstSuccess` really picks the first entry whose `success` flag
is set: everything before it failed. -/
theorem findFirstSuccess_first (pre : List RegEntry) (e : RegEntry)
    (post : List RegEntry) (hpre : ∀ x ∈ pre, x.success = false)
    (he : e.success = true) :
    findFirstSuccess (pre ++ e :: post) = some e.name := by
  induction pre with
  | nil => simp [findFirstSuccess, he]
  | cons x rest ih =>
    have hx : x.success = false := hpre x (List.mem_cons_self _ _)
    have hrest : ∀ y ∈ rest, y.success = false :=
      fun y hy => hpre y (List.mem_cons_of_mem _ hy)
    simp only [List.cons_append, findFirstSuccess, hx]
    simpa using ih hrest

theorem findFirstSuccess_none {rs : List RegEntry}
    (h : ∀ x ∈ rs, x.success = false) : findFirstSuccess rs = none := by
  induction rs with
  | nil => rfl
  | cons x rest ih =>
    have hx : x.success = false := h x (List.mem_cons_self _ _)
    simp only [findFirstSuccess, hx]
    exact ih (fun y hy => h y (List.mem_cons_of_mem _ hy))

/-- Looking the mutated descriptor up after `setServerId`. -/
theorem sessLookup_setServerId_self (cfg : Config) (n : String)
    (sid : Option String) :
    sessLookup n (cfg.setServerId n sid).serversD =
      (sessLookup n cfg.serversD).map (fun sc => { sc with server_id := sid }) := by
  show sessLookup n ((cfg.serversD).map (fun p =>
      if p.1 = n then (p.1, { p.2 with server_id := sid }) else p)) = _
  induction cfg.serversD with
  | nil => rfl
  | cons p rest ih =>
    obtain ⟨k, w⟩ := p
    by_cases h : k = n
    · simp [sessLookup_cons, h]
    · simp only [List.map_cons, if_neg h]
      rw [sessLookup_cons, sessLookup_cons, if_neg h, if_neg h]
      exact ih

/-- Failure of one disconnect attempt for name `m` against snapshot
state `sess` (used to characterise the aggregate error). -/
def badAt (sess : List (String × MCPSession)) (m : String) : Bool :=
  match sessLookup m sess with
  | some s => !s.disconnectOk
  | none => false

theorem badAt_eraseKey_ne {m n : String} (h : m ≠ n)
    (sess : List (String × MCPSession)) :
    badAt (eraseKey n sess) m = badAt sess m := by
  unfold badAt
  rw [sessLookup_eraseKey_ne h]

/-- Full run of the `close_all_sessions` loop over the snapshot of the
session-map keys: the map and (under the bookkeeping invariant) the
active list end empty, and the collected errors are exactly the names of
the sessions whose disconnect raised. -/
theorem closeAllGo_run (names : List String) :
    ∀ (sess : List (String × MCPSession)) (act errs : List String),
      names = keysOf sess → (keysOf sess).Nodup →
      act.Nodup → (∀ a ∈ act, a ∈ names) →
      (closeAllGo names sess act errs).1 = [] ∧
      (closeAllGo names sess act errs).2.1 = [] ∧
      (closeAllGo names sess act errs).2.2 =
        errs ++ names.filter (fun m => badAt sess m) := by
  induction names with
  | nil =>
    intro sess act errs hk hnd ha hsub
    have hsess : sess = [] := by
      cases sess with
      | nil => rfl
      | cons p rest => simp [keysOf] at hk
    have hact : act = [] := by
      cases act with
      | nil => rfl
      | cons a rest => exact absurd (hsub a (List.mem_cons_self _ _)) (by simp)
    subst hsess; subst hact
    simp [closeAllGo]
  | cons n rest ih =>
    intro sess act errs hk hnd ha hsub
    cases sess with
    | nil => simp [keysOf] at hk
    | cons p sess' =>
      obtain ⟨k, s0⟩ := p
      rw [keysOf_cons] at hk
      injection hk with hk1 hk2
      subst hk1
      rw [keysOf_cons, List.nodup_cons] at hnd
      have herase : eraseKey n ((n, s0) :: sess') = sess' := by
        rw [eraseKey_cons, if_pos rfl]
        exact eraseKey_of_not_mem hnd.1
      have hlook : sessLookup n ((n, s0) :: sess') = some s0 := by
        rw [sessLookup_cons, if_pos rfl]
      have hsub' : ∀ a ∈ act.erase n, a ∈ rest := by
        intro a haa
        have h1 := (ha.mem_erase_iff.mp haa)
        rcases List.mem_cons.mp (hsub a h1.2) with h2 | h2
        · exact absurd h2 h1.1
        · exact h2
      have hrec := ih sess' (act.erase n)
        (if s0.disconnectOk then errs else errs ++ [n])
        hk2 hnd.2 (ha.erase n) hsub'
      have hstep : closeAllGo (n :: rest) ((n, s0) :: sess') act errs =
          closeAllGo rest sess' (act.erase n)
            (if s0.disconnectOk then errs else errs ++ [n]) := by
        rw [closeAllGo]
        rw [hlook, herase]
      rw [hstep]
      refine ⟨hrec.1, hrec.2.1, ?_⟩
      rw [hrec.2.2]
      have hfe : rest.filter (fun m => badAt sess' m) =
          rest.filter (fun m => badAt ((n, s0) :: sess') m) := by
        apply List.filter_congr
        intro m hm
        have hmn : n ≠ m := fun he => hnd.1 (hk2 ▸ (he ▸ hm))
        unfold badAt
        rw [sessLookup_cons, if_neg hmn]
      rw [hfe]
      have hbad : badAt ((n, s0) :: sess') n = !s0.disconnectOk := by
        unfold badAt
        rw [hlook]
      rw [List.filter_cons, hbad]
      cases hdc : s0.disconnectOk with
      | true => simp [hdc]
      | false => simp [hdc]

/-- Full run of the router-client `close_all_sessions` loop: the map and
(under the invariant) the active list end empty. -/
theorem routerCloseAllGo_run (names : List String) :
    ∀ (c : MCPRouterClient),
      names = keysOf c.sessions → (keysOf c.sessions).Nodup →
      c.active_sessions.Nodup →
      (∀ a ∈ c.active_sessions, a ∈ names) →
      (routerCloseAllGo names c).sessions = [] ∧
      (routerCloseAllGo names c).active_sessions = [] := by
  induction names with
  | nil =>
    intro c hk hnd ha hsub
    have hsess : c.sessions = [] := by
      cases hs : c.sessions with
      | nil => rfl
      | cons p rest => rw [hs] at hk; simp [keysOf] at hk
    have hact : c.active_sessions = [] := by
      cases hs : c.active_sessions with
      | nil => rfl
      | cons a rest =>
        exact absurd (hsub a (by rw [hs]; exact List.mem_cons_self _ _)) (by simp)
    simp [routerCloseAllGo, hsess, hact]
  | cons n rest ih =>
    intro c hk hnd ha hsub
    cases hs : c.sessions with
    | nil => rw [hs] at hk; simp [keysOf] at hk
    | cons p sess' =>
      obtain ⟨k, s0⟩ := p
      rw [hs, keysOf_cons] at hk
      injection hk with hk1 hk2
      subst hk1
      rw [hs, keysOf_cons, List.nodup_cons] at hnd
      have herase : eraseKey n ((n, s0) :: sess') = sess' := by
        rw [eraseKey_cons, if_pos rfl]
        exact eraseKey_of_not_mem hnd.1
      have hstep : (c.close_session n).1 =
          { c with sessions := sess',
                   active_sessions := c.active_sessions.erase n } := by
        unfold MCPRouterClient.close_session
        rw [hs]
        rw [sessLookup_cons, if_pos rfl]
        simp [herase]
      rw [routerCloseAllGo, hstep]
      apply ih
      · exact hk2
      · exact hnd.2
      · exact ha.erase n
      · intro a haa
        have h1 := (ha.mem_erase_iff.mp haa)
        rcases List.mem_cons.mp (hsub a h1.2) with h2 | h2
        · exact absurd h2 h1.1
        · exact h2

/-- What `create_session` can do to the session bookkeeping: either it
leaves both the session map and the active list untouched (an error path),
or it stores the new session under the name and appends the name to the
active list if absent. -/
theorem create_session_state (c : MCPClient) (n : String)
    (ai ar : Bool) (env : NetEnv) (iOk dOk : Bool) :
    (((c.create_session n ai ar env iOk dOk).1.sessions = c.sessions ∧
      (c.create_session n ai ar env iOk dOk).1.active_sessions =
        c.active_sessions)) ∨
    (∃ sess,
      (c.create_session n ai ar env iOk dOk).1.sessions =
        insertKey n sess c.sessions ∧
      (c.create_session n ai ar env iOk dOk).1.active_sessions =
        (if n ∈ c.active_sessions then c.active_sessions
         else c.active_sessions ++ [n])) := by
  unfold MCPClient.create_session MCPClient.finishSession
  dsimp only
  repeat' split
  all_goals first
    | exact Or.inl ⟨rfl, rfl⟩
    | exact Or.inr ⟨_, rfl, rfl⟩

/-- `close_session` either leaves the state unchanged or removes the name
from the session map and active list. -/
theorem close_session_state (c : MCPClient) (n : String) :
    (c.close_session n).1 = c ∨
    ((c.close_session n).1.sessions = eraseKey n c.sessions ∧
     (c.close_session n).1.active_sessions = c.active_sessions.erase n) := by
  unfold MCPClient.close_session
  repeat' split
  all_goals first
    | exact Or.inl rfl
    | exact Or.inr ⟨rfl, rfl⟩

/-- `add_server` and `remove_server` touch the session map not at all and
the active list only by an erase. -/
theorem add_server_state (c : MCPClient) (n : String) (sc : ServerConfig) :
    (c.add_server n sc).1.sessions = c.sessions ∧
    (c.add_server n sc).1.active_sessions = c.active_sessions := by
  unfold MCPClient.add_server
  dsimp only
  repeat' split
  all_goals exact ⟨rfl, rfl⟩

theorem remove_server_state (c : MCPClient) (n : String) :
    (c.remove_server n).1.sessions = c.sessions ∧
    ((c.remove_server n).1.active_sessions = c.active_sessions ∨
     (c.remove_server n).1.active_sessions = c.active_sessions.erase n) := by
  unfold MCPClient.remove_server
  dsimp only
  repeat' split
  all_goals first
    | exact ⟨rfl, Or.inl rfl⟩
    | exact ⟨rfl, Or.inr rfl⟩

theorem nodup_append_singleton {l : List String} {n : String}
    (hn : n ∉ l) (hl : l.Nodup) : (l ++ [n]).Nodup := by
  rw [← List.concat_eq_append]
  exact hl.concat hn

/-- Every single operation preserves the bookkeeping invariant. -/
theorem step_preserves_WF (c : MCPClient) (op : ClientOp) (h : WF c) :
    WF (c.step op) := by
  obtain ⟨hk, ha, hsub⟩ := h
  cases op with
  | addServer n sc =>
    have hs := add_server_state c n sc
    exact ⟨hs.1 ▸ hk, hs.2 ▸ ha, fun a haa => hs.1 ▸ hsub a (hs.2 ▸ haa)⟩
  | removeServer n =>
    have hs := remove_server_state c n
    rcases hs.2 with h2 | h2
    · exact ⟨hs.1 ▸ hk, h2 ▸ ha, fun a haa => hs.1 ▸ hsub a (h2 ▸ haa)⟩
    · refine ⟨hs.1 ▸ hk, h2 ▸ ha.erase n, fun a haa => ?_⟩
      rw [MCPClient.step, hs.1]
      rw [MCPClient.step, h2] at haa
      exact hsub a (List.mem_of_mem_erase haa)
  | createSession n ai ar env iOk dOk =>
    rcases create_session_state c n ai ar env iOk dOk with ⟨h1, h2⟩ | ⟨sess, h1, h2⟩
    · exact ⟨h1 ▸ hk, h2 ▸ ha, fun a haa => h1 ▸ hsub a (h2 ▸ haa)⟩
    · refine ⟨?_, ?_, ?_⟩
      · rw [MCPClient.step, h1]
        exact nodup_keys_insertKey n sess hk
      · rw [MCPClient.step, h2]
        split
        · exact ha
        · next hmem => exact nodup_append_singleton hmem ha
      · intro a haa
        rw [MCPClient.step, h2] at haa
        rw [MCPClient.step, h1, mem_keys_insertKey]
        by_cases hmem : n ∈ c.active_sessions
        · rw [if_pos hmem] at haa
          exact Or.inl (hsub a haa)
        · rw [if_neg hmem, List.mem_append] at haa
          rcases haa with haa | haa
          · exact Or.inl (hsub a haa)
          · simp only [List.mem_singleton] at haa
            exact Or.inr haa
  | closeSession n =>
    rcases close_session_state c n with h1 | ⟨h1, h2⟩
    · rw [MCPClient.step, h1]
      exact ⟨hk, ha, hsub⟩
    · refine ⟨?_, ?_, ?_⟩
      · rw [MCPClient.step, h1]
        exact nodup_keys_eraseKey n hk
      · rw [MCPClient.step, h2]
        exact ha.erase n
      · intro a haa
        rw [MCPClient.step, h2] at haa
        rw [MCPClient.step, h1, mem_keys_eraseKey]
        have hane := ha.mem_erase_iff.mp haa
        exact ⟨hsub a hane.2, hane.1⟩
  | closeAll =>
    have hr := closeAllGo_run (keysOf c.sessions) c.sessions
      c.active_sessions [] rfl hk ha hsub
    have h1 : (c.step .closeAll).sessions = [] := hr.1
    have h2 : (c.step .closeAll).active_sessions = [] := hr.2.1
    rw [WF, h1, h2]
    simp [keysOf]

/-- The invariant is preserved along any fold of operations. -/
theorem foldl_preserves_WF (ops : List ClientOp) :
    ∀ c : MCPClient, WF c → WF (ops.foldl MCPClient.step c) := by
  induction ops with
  | nil => intro c h; exact h
  | cons op rest ih =>
    intro c h
    rw [List.foldl_cons]
    exact ih _ (step_preserves_WF c op h)

/-- The bookkeeping invariant holds after any operation sequence from a
fresh client. -/
theorem run_WF (cfg : Config) (ops : List ClientOp) : WF (MCPClient.run cfg ops) := by
  rw [MCPClient.run]
  apply foldl_preserves_WF
  refine ⟨?_, ?_, ?_⟩
  · simp [MCPClient.init, keysOf]
  · simp [MCPClient.init]
  · intro a haa
    simp [MCPClient.init] at haa

theorem sessLookup_some_ne_nil {α : Type} {n : String} {v : α}
    {l : List (String × α)} (h : sessLookup n l = some v) :
    l.isEmpty = false := by
  cases l with
  | nil => simp [sessLookup] at h
  | cons p rest => rfl

theorem findFirstSuccess_length_pos {rs : List RegEntry} {sid : String}
    (h : findFirstSuccess rs = some sid) : rs.length > 0 := by
  cases rs with
  | nil => simp [findFirstSuccess] at h
  | cons e rest => simp

/-! ### Claims -/

/-- C9: for every sequence of client operations (add_server, remove_server,
create_session, close_session, close_all_sessions) starting from a fresh
client, the active-names list is duplicate-free and a subset of the
session-map keys; every operation preserves this, including the paths
where a disconnect raises. -/
theorem C9_active_list_invariant (cfg : Config) (ops : List ClientOp) :
    (MCPClient.run cfg ops).active_sessions.Nodup ∧
    ∀ a ∈ (MCPClient.run cfg ops).active_sessions,
      a ∈ keysOf (MCPClient.run cfg ops).sessions := by
  have h := run_WF cfg ops
  exact ⟨h.2.1, h.2.2⟩

/-- C9 witness: the invariant projected at a concrete run that opens one
session. -/
theorem C9_active_list_invariant_witness :
    "s" ∈ keysOf (MCPClient.run
      ⟨some ⟨some "http://r", none, none⟩,
       some [("s", ⟨some "npx", some ["-y"], [], none, none, none, none⟩)]⟩
      [.createSession "s" false false
        ⟨.transportError, .transportError, .transportError⟩ true true]).sessions := by
  exact (C9_active_list_invariant
    ⟨some ⟨some "http://r", none, none⟩,
     some [("s", ⟨some "npx", some ["-y"], [], none, none, none, none⟩)]⟩
    [.createSession "s" false false
      ⟨.transportError, .transportError, .transportError⟩ true true]).2
    "s" (by decide)

/-- C1 counterexample: a client state with an open session for `"a"` whose
disconnect raises; `MCPClient.close_session "a"` propagates the exception
and leaves `"a"` in both the session map and the active list, so the
claimed removal-even-on-raise does not hold for this variant. -/
theorem C1_counterexample :
    ((⟨⟨none, none⟩, [("a", ⟨Connector.http "u" [] none, false⟩)],
        ["a"], none, []⟩ : MCPClient).close_session "a").2 =
      some (.exception "disconnect raised") ∧
    sessLookup "a" ((⟨⟨none, none⟩,
        [("a", ⟨Connector.http "u" [] none, false⟩)],
        ["a"], none, []⟩ : MCPClient).close_session "a").1.sessions =
      some ⟨Connector.http "u" [] none, false⟩ ∧
    "a" ∈ ((⟨⟨none, none⟩,
        [("a", ⟨Connector.http "u" [] none, false⟩)],
        ["a"], none, []⟩ : MCPClient).close_session "a").1.active_sessions := by
  decide

/-- C1 amended: `MCPRouterClient.close_session` removes the name from both
the session map and the active list regardless of the disconnect outcome
(the exception is swallowed, not propagated); `MCPClient.close_session`
removes the name only when disconnect returns normally — when disconnect
raises, the exception propagates and the state is left unchanged. -/
theorem C1_amended_close_session
    (r : MCPRouterClient) (c : MCPClient) (n : String) (s t : MCPSession)
    (hr : sessLookup n r.sessions = some s)
    (hra : r.active_sessions.Nodup)
    (hc : sessLookup n c.sessions = some t)
    (hca : c.active_sessions.Nodup) :
    (sessLookup n (r.close_session n).1.sessions = none ∧
     n ∉ (r.close_session n).1.active_sessions ∧
     (r.close_session n).2 = none) ∧
    (t.disconnectOk = true →
       sessLookup n (c.close_session n).1.sessions = none ∧
       n ∉ (c.close_session n).1.active_sessions ∧
       (c.close_session n).2 = none) ∧
    (t.disconnectOk = false →
       (c.close_session n).1 = c ∧
       (c.close_session n).2 = some (.exception "disconnect raised")) := by
  refine ⟨?_, ?_, ?_⟩
  · unfold MCPRouterClient.close_session
    rw [hr]
    exact ⟨sessLookup_eraseKey_self n r.sessions, hra.not_mem_erase, rfl⟩
  · intro hdc
    simp only [MCPClient.close_session, hc]
    rw [if_pos hdc]
    exact ⟨sessLookup_eraseKey_self n c.sessions, hca.not_mem_erase, rfl⟩
  · intro hdc
    simp only [MCPClient.close_session, hc]
    rw [if_neg (by simp [hdc])]
    exact ⟨rfl, rfl⟩

/-- C1 witness: the amended statement at a concrete state. -/
theorem C1_amended_close_session_witness :
    sessLookup "a"
      (((⟨⟨none, none⟩, [("a", ⟨Connector.http "u" [] none, true⟩)],
          ["a"], none⟩ : MCPRouterClient).close_session "a").1.sessions) =
      none := by
  exact (C1_amended_close_session
    ⟨⟨none, none⟩, [("a", ⟨Connector.http "u" [] none, true⟩)], ["a"], none⟩
    ⟨⟨none, none⟩, [("a", ⟨Connector.http "u" [] none, true⟩)], ["a"], none, []⟩
    "a" ⟨Connector.http "u" [] none, true⟩ ⟨Connector.http "u" [] none, true⟩
    (by decide) (by decide) (by decide) (by decide)).1.1

/-- C2 counterexample: a router-client state with one open session whose
disconnect raises; `MCPRouterClient.close_all_sessions` raises no
aggregate error although a disconnect failed (it only logs), refuting
"raises exactly one aggregate error iff at least one disconnect failed"
for this variant. -/
theorem C2_counterexample :
    (∃ p ∈ (⟨⟨none, none⟩,
        [("a", ⟨Connector.http "u" [] none, false⟩)],
        ["a"], none⟩ : MCPRouterClient).sessions, p.2.disconnectOk = false) ∧
    ((⟨⟨none, none⟩, [("a", ⟨Connector.http "u" [] none, false⟩)],
        ["a"], none⟩ : MCPRouterClient).close_all_sessions).2 = none ∧
    ((⟨⟨none, none⟩, [("a", ⟨Connector.http "u" [] none, false⟩)],
        ["a"], none⟩ : MCPRouterClient).close_all_sessions).1.sessions = [] ∧
    ((⟨⟨none, none⟩, [("a", ⟨Connector.http "u" [] none, false⟩)],
        ["a"], none⟩ : MCPRouterClient).close_all_sessions).1.active_sessions
      = [] := by
  decide

/-- C2 amended: both variants empty the session map and the active list by
the time `close_all_sessions` returns, having attempted each name of the
snapshot; the `MCPClient` variant raises exactly one aggregate error iff
at least one disconnect failed, while the `MCPRouterClient` variant never
raises (individual failures are swallowed and only logged). -/
theorem C2_amended_close_all (c : MCPClient) (r : MCPRouterClient)
    (hck : (keysOf c.sessions).Nodup) (hca : c.active_sessions.Nodup)
    (hcs : ∀ a ∈ c.active_sessions, a ∈ keysOf c.sessions)
    (hrk : (keysOf r.sessions).Nodup) (hra : r.active_sessions.Nodup)
    (hrs : ∀ a ∈ r.active_sessions, a ∈ keysOf r.sessions) :
    ((c.close_all_sessions).1.sessions = [] ∧
     (c.close_all_sessions).1.active_sessions = [] ∧
     ((c.close_all_sessions).2 ≠ none ↔
        ∃ p ∈ c.sessions, p.2.disconnectOk = false)) ∧
    ((r.close_all_sessions).1.sessions = [] ∧
     (r.close_all_sessions).1.active_sessions = [] ∧
     (r.close_all_sessions).2 = none) := by
  have hc := closeAllGo_run (keysOf c.sessions) c.sessions c.active_sessions []
    rfl hck hca hcs
  have hr := routerCloseAllGo_run (keysOf r.sessions) r rfl hrk hra hrs
  refine ⟨⟨hc.1, hc.2.1, ?_⟩, hr.1, hr.2, rfl⟩
  have h22 : (c.close_all_sessions).2 =
      (if ((keysOf c.sessions).filter (fun m => badAt c.sessions m)).isEmpty
       then none else some (.exception "Disconnect failed")) := by
    show (if (closeAllGo (keysOf c.sessions) c.sessions
        c.active_sessions []).2.2.isEmpty then (none : Option PyError)
        else some (.exception "Disconnect failed")) = _
    rw [hc.2.2]
    rw [List.nil_append]
  rw [h22]
  constructor
  · intro hne
    have hfilter :
        (keysOf c.sessions).filter (fun m => badAt c.sessions m) ≠ [] := by
      intro hemp
      rw [hemp] at hne
      simp at hne
    obtain ⟨m, hm⟩ := List.exists_mem_of_ne_nil _ hfilter
    have hmf := List.mem_filter.mp hm
    cases hl : sessLookup m c.sessions with
    | none =>
      have : badAt c.sessions m = false := by unfold badAt; rw [hl]
      rw [this] at hmf
      exact absurd hmf.2 (by simp)
    | some s =>
      have hbad : (!s.disconnectOk) = true := by
        have : badAt c.sessions m = !s.disconnectOk := by unfold badAt; rw [hl]
        rw [← this]
        exact hmf.2
      refine ⟨(m, s), sessLookup_mem hl, ?_⟩
      simpa using hbad
  · rintro ⟨p, hp, hpf⟩
    have hl := mem_sessLookup hck hp
    have hbad : badAt c.sessions p.1 = true := by
      unfold badAt
      rw [hl]
      show (!p.2.disconnectOk) = true
      rw [hpf]
      rfl
    have hmem : p.1 ∈ keysOf c.sessions := List.mem_map_of_mem Prod.fst hp
    have hin : p.1 ∈ (keysOf c.sessions).filter (fun m => badAt c.sessions m) :=
      List.mem_filter.mpr ⟨hmem, hbad⟩
    have hne := List.ne_nil_of_mem hin
    rw [if_neg (by simpa [List.isEmpty_iff] using hne)]
    simp

/-- C2 witness: the amended statement at a concrete pair of states. -/
theorem C2_amended_close_all_witness :
    ((⟨⟨none, none⟩, [("a", ⟨Connector.http "u" [] none, false⟩)],
        ["a"], none, []⟩ : MCPClient).close_all_sessions).1.sessions = [] := by
  exact (C2_amended_close_all
    ⟨⟨none, none⟩, [("a", ⟨Connector.http "u" [] none, false⟩)], ["a"], none, []⟩
    ⟨⟨none, none⟩, [("a", ⟨Connector.http "u" [] none, false⟩)], ["a"], none⟩
    (by decide) (by decide) (by decide) (by decide) (by decide)
    (by decide)).1.1

/-- A registration response that resolves no id: transport error,
non-2xx status, missing/empty `results`, or no successful entry. -/
def regFailed : HttpResult RegBody → Bool
  | .transportError => true
  | .response st body =>
    if st = 200 ∨ st = 201 then
      match body.results with
      | none => true
      | some rs =>
        if rs.length > 0 then (findFirstSuccess rs).isNone else true
    else true

/-- A start response that does not confirm success. -/
def startFailed : HttpResult StartBody → Bool
  | .transportError => true
  | .response st body => !(decide (st = 200) && body.success)

/-- A listing response that yields no list. -/
def listFailed : HttpResult (List RemoteServer) → Bool
  | .transportError => true
  | .response st _ => !(decide (st = 200))

theorem registerCore_failed (ru : String) (cfg : Config) (n : String)
    (sc : ServerConfig) (cmd : String) (args : List String)
    (hlook : sessLookup n cfg.serversD = some sc)
    (hcmd : sc.command = some cmd) (hargs : sc.args = some args)
    {rr : HttpResult RegBody} (hfail : regFailed rr = true) :
    registerCore (some ru) cfg n rr =
      (cfg, [.register (.command n cmd args sc.env)], .ok none) := by
  cases rr with
  | transportError => simp [registerCore, hlook, hcmd, hargs]
  | response st body =>
    simp only [regFailed] at hfail
    by_cases hst : st = 200 ∨ st = 201
    · rw [if_pos hst] at hfail
      cases hres : body.results with
      | none => simp [registerCore, hlook, hcmd, hargs, hres, hst]
      | some rs =>
        rw [hres] at hfail
        have hfail2 : (if rs.length > 0 then (findFirstSuccess rs).isNone
            else true) = true := hfail
        by_cases hlen : rs.length > 0
        · rw [if_pos hlen] at hfail2
          cases hf : findFirstSuccess rs with
          | none =>
            simp [registerCore, hlook, hcmd, hargs, hres, hst, hlen, hf]
          | some sid => rw [hf] at hfail2; simp at hfail2
        · simp [registerCore, hlook, hcmd, hargs, hres, hst, hlen]
    · simp [registerCore, hlook, hcmd, hargs, hst]

theorem startCore_result (ru : String) (cfg : Config) (n : String)
    (sc : ServerConfig)
    (hlook : sessLookup n cfg.serversD = some sc)
    {sr : HttpResult StartBody} (hfail : startFailed sr = true) :
    (startCore (some ru) cfg n sr).2 = .ok false := by
  cases hsid : sc.server_id with
  | none => simp [startCore, hlook, hsid]
  | some sid =>
    cases sr with
    | transportError => simp [startCore, hlook, hsid]
    | response st body =>
      simp only [startFailed] at hfail
      rw [Bool.not_eq_true'] at hfail
      simp only [startCore, hlook, hsid]
      rw [hfail]

theorem listCore_failed (ru : String)
    {lr : HttpResult (List RemoteServer)} (hfail : listFailed lr = true) :
    listCore (some ru) lr = ([.listServers], .ok []) := by
  cases lr with
  | transportError => simp [listCore]
  | response st body =>
    simp only [listFailed] at hfail
    rw [Bool.not_eq_true', decide_eq_false_iff_not] at hfail
    simp [listCore, hfail]

theorem connectorRegister_failed (p : RegPayload)
    {rr : HttpResult RegBody} (hfail : regFailed rr = true) :
    (connectorRegister p rr).2 = none := by
  cases rr with
  | transportError => simp [connectorRegister]
  | response st body =>
    simp only [regFailed] at hfail
    by_cases hst : st = 200 ∨ st = 201
    · rw [if_pos hst] at hfail
      cases hres : body.results with
      | none => simp [connectorRegister, hres, hst]
      | some rs =>
        rw [hres] at hfail
        have hfail2 : (if rs.length > 0 then (findFirstSuccess rs).isNone
            else true) = true := hfail
        by_cases hlen : rs.length > 0
        · rw [if_pos hlen] at hfail2
          simp [connectorRegister, hres, hst, hlen,
            Option.isNone_iff_eq_none.mp hfail2]
        · simp [connectorRegister, hres, hst, hlen]
    · simp [connectorRegister, hst]

theorem routerRegisterCore_failed (cfg : Config) (n : String)
    (sc : ServerConfig) (hlook : sessLookup n cfg.serversD = some sc)
    {rr : HttpResult RegBody} (hfail : regFailed rr = true) :
    (routerRegisterCore true cfg n rr).1 = cfg ∧
    (routerRegisterCore true cfg n rr).2.2 = .ok none := by
  have h2 := connectorRegister_failed
    (match sc.command, sc.args with
      | some cmd, some args => RegPayload.command n cmd args sc.env
      | _, _ => RegPayload.preShaped n sc) hfail
  simp only [routerRegisterCore, hlook, Bool.not_true, Bool.false_eq_true,
    if_false]
  rw [h2]
  exact ⟨rfl, rfl⟩

/-- C3: a registration response with status 200/201 and a non-empty
results list resolves the id to the `name` of the first entry whose
`success` flag is true (not the first entry overall) and caches it onto
the descriptor; with no successful entry it resolves to `None` and the
descriptor is untouched.  Holds for both the `MCPClient` path and the
`MCPRouterConnector.register_server` scan. -/
theorem C3_register_first_success
    (ru : String) (cfg : Config) (n : String) (sc : ServerConfig)
    (cmd : String) (args : List String) (st : Nat)
    (hlook : sessLookup n cfg.serversD = some sc)
    (hcmd : sc.command = some cmd) (hargs : sc.args = some args)
    (hst : st = 200 ∨ st = 201) :
    (∀ pre e post, (∀ x ∈ pre, x.success = false) → e.success = true →
      registerCore (some ru) cfg n (.response st ⟨some (pre ++ e :: post)⟩) =
        (cfg.setServerId n (some e.name),
         [.register (.command n cmd args sc.env)], .ok (some e.name)) ∧
      (sessLookup n (registerCore (some ru) cfg n
          (.response st ⟨some (pre ++ e :: post)⟩)).1.serversD).map
            (fun x => x.server_id) = some (some e.name)) ∧
    (∀ rs : List RegEntry, (∀ x ∈ rs, x.success = false) →
      registerCore (some ru) cfg n (.response st ⟨some rs⟩) =
        (cfg, [.register (.command n cmd args sc.env)], .ok none)) ∧
    (∀ (payload : RegPayload) pre e post,
      (∀ x ∈ pre, x.success = false) → e.success = true →
      (connectorRegister payload
        (.response st ⟨some (pre ++ e :: post)⟩)).2 = some e.name) := by
  refine ⟨?_, ?_, ?_⟩
  · intro pre e post hpre he
    have hfind := findFirstSuccess_first pre e post hpre he
    have heq : registerCore (some ru) cfg n
        (.response st ⟨some (pre ++ e :: post)⟩) =
        (cfg.setServerId n (some e.name),
         [.register (.command n cmd args sc.env)], .ok (some e.name)) := by
      simp only [registerCore, hlook, hcmd, hargs]
      rw [if_pos hst]
      rw [if_pos (by simp : (pre ++ e :: post).length > 0)]
      rw [hfind]
    refine ⟨heq, ?_⟩
    rw [heq]
    show (sessLookup n (cfg.setServerId n (some e.name)).serversD).map
      (fun x => x.server_id) = some (some e.name)
    rw [sessLookup_setServerId_self, hlook]
    rfl
  · intro rs hall
    have hfind := findFirstSuccess_none hall
    simp only [registerCore, hlook, hcmd, hargs]
    rw [if_pos hst]
    by_cases hlen : rs.length > 0
    · rw [if_pos hlen, hfind]
    · rw [if_neg hlen]
  · intro payload pre e post hpre he
    have hfind := findFirstSuccess_first pre e post hpre he
    simp only [connectorRegister]
    rw [if_pos hst]
    rw [if_pos (by simp : (pre ++ e :: post).length > 0)]
    exact hfind

/-- C3 witness: the theorem applied at the spec example
`{results: [{name: x, success: false}, {name: y, success: true}]}`. -/
theorem C3_register_first_success_witness :
    registerCore (some "http://r")
      ⟨none, some [("s", ⟨some "npx", some [], [], none, none, none, none⟩)]⟩
      "s" (.response 200 ⟨some [⟨"x", false⟩, ⟨"y", true⟩]⟩) =
      ((⟨none, some [("s", ⟨some "npx", some [], [], none, none, none,
          none⟩)]⟩ : Config).setServerId "s" (some "y"),
       [.register (.command "s" "npx" [] [])], .ok (some "y")) := by
  exact ((C3_register_first_success "http://r"
    ⟨none, some [("s", ⟨some "npx", some [], [], none, none, none, none⟩)]⟩
    "s" ⟨some "npx", some [], [], none, none, none, none⟩ "npx" [] 200
    (by decide) (by decide) (by decide) (Or.inl rfl)).1
    [⟨"x", false⟩] ⟨"y", true⟩ [] (by decide) (by decide)).1

/-- C5: create_session raises a configuration error when no servers are
configured, when the requested name is not configured, or when no router
URL is configured — in every such case before any network call, with the
client state unchanged. -/
theorem C5_config_errors_before_network (c : MCPClient) (n : String)
    (ai ar iOk dOk : Bool) (env : NetEnv)
    (h : c.config.serversD = [] ∨ sessLookup n c.config.serversD = none ∨
         c.router_url = none) :
    (∃ msg, (c.create_session n ai ar env iOk dOk).2.2 =
       .error (.valueError msg)) ∧
    (c.create_session n ai ar env iOk dOk).2.1 = [] ∧
    (c.create_session n ai ar env iOk dOk).1 = c := by
  by_cases hemp : c.config.serversD.isEmpty
  · unfold MCPClient.create_session
    rw [if_pos hemp]
    exact ⟨⟨_, rfl⟩, rfl, rfl⟩
  · cases hl : sessLookup n c.config.serversD with
    | none =>
      unfold MCPClient.create_session
      rw [if_neg hemp, hl]
      exact ⟨⟨_, rfl⟩, rfl, rfl⟩
    | some sc =>
      have hurl : c.router_url = none := by
        rcases h with h | h | h
        · exact absurd (by rw [h]; rfl) hemp
        · rw [hl] at h; exact absurd h (by simp)
        · exact h
      unfold MCPClient.create_session
      rw [if_neg hemp, hl, hurl]
      exact ⟨⟨_, rfl⟩, rfl, rfl⟩

/-- C5 witness: a client with a configured server but no router URL. -/
theorem C5_config_errors_before_network_witness :
    ((⟨⟨none, some [("s", ⟨some "npx", some [], [], none, none, none,
        none⟩)]⟩, [], [], none, []⟩ : MCPClient).create_session "s"
      true true ⟨.transportError, .transportError, .transportError⟩
      true true).2.1 = [] := by
  exact (C5_config_errors_before_network
    ⟨⟨none, some [("s", ⟨some "npx", some [], [], none, none, none,
        none⟩)]⟩, [], [], none, []⟩ "s" true true true true
    ⟨.transportError, .transportError, .transportError⟩
    (Or.inr (Or.inr rfl))).2.1

/-- C6: transport or remote failures during registration, start, or
listing are converted to the neutral results `None`, `false`, `[]` and
never propagate as exceptions (the results are `.ok`, not `.error`). -/
theorem C6_failures_neutral (ru : String) (cfg : Config) (n : String)
    (sc : ServerConfig) (cmd : String) (args : List String)
    (hlook : sessLookup n cfg.serversD = some sc)
    (hcmd : sc.command = some cmd) (hargs : sc.args = some args)
    (rr : HttpResult RegBody) (sr : HttpResult StartBody)
    (lr : HttpResult (List RemoteServer))
    (hr : regFailed rr = true) (hs : startFailed sr = true)
    (hl : listFailed lr = true) :
    (registerCore (some ru) cfg n rr).2.2 = .ok none ∧
    (startCore (some ru) cfg n sr).2 = .ok false ∧
    (listCore (some ru) lr).2 = .ok [] := by
  refine ⟨?_, ?_, ?_⟩
  · rw [registerCore_failed ru cfg n sc cmd args hlook hcmd hargs hr]
  · exact startCore_result ru cfg n sc hlook hs
  · rw [listCore_failed ru hl]

/-- C6 witness: the theorem at transport errors. -/
theorem C6_failures_neutral_witness :
    (registerCore (some "http://r")
      ⟨none, some [("s", ⟨some "npx", some [], [], none, none, none,
        none⟩)]⟩ "s" .transportError).2.2 = .ok none := by
  exact (C6_failures_neutral "http://r"
    ⟨none, some [("s", ⟨some "npx", some [], [], none, none, none, none⟩)]⟩
    "s" ⟨some "npx", some [], [], none, none, none, none⟩ "npx" []
    (by decide) (by decide) (by decide)
    .transportError .transportError .transportError
    (by decide) (by decide) (by decide)).1

/-- C10: a registration attempt that does not resolve an id (non-2xx,
transport error, or no successful results entry) leaves the configuration
unchanged — no `server_id` is written; this holds for both client
variants. -/
theorem C10_failed_registration_frame
    (ru : String) (cfg : Config) (n : String) (sc : ServerConfig)
    (cmd : String) (args : List String)
    (hlook : sessLookup n cfg.serversD = some sc)
    (hcmd : sc.command = some cmd) (hargs : sc.args = some args)
    (rr : HttpResult RegBody) (hfail : regFailed rr = true) :
    (registerCore (some ru) cfg n rr).1 = cfg ∧
    (registerCore (some ru) cfg n rr).2.2 = .ok none ∧
    (routerRegisterCore true cfg n rr).1 = cfg ∧
    (routerRegisterCore true cfg n rr).2.2 = .ok none := by
  have h1 := registerCore_failed ru cfg n sc cmd args hlook hcmd hargs hfail
  have h2 := routerRegisterCore_failed cfg n sc hlook hfail
  rw [h1]
  exact ⟨rfl, rfl, h2.1, h2.2⟩

/-- C10 witness: the theorem at a 500 response. -/
theorem C10_failed_registration_frame_witness :
    (registerCore (some "http://r")
      ⟨none, some [("s", ⟨some "npx", some [], [], none, none, none,
        none⟩)]⟩ "s" (.response 500 ⟨none⟩)).1 =
      ⟨none, some [("s", ⟨some "npx", some [], [], none, none, none,
        none⟩)]⟩ := by
  exact (C10_failed_registration_frame "http://r"
    ⟨none, some [("s", ⟨some "npx", some [], [], none, none, none, none⟩)]⟩
    "s" ⟨some "npx", some [], [], none, none, none, none⟩ "npx" []
    (by decide) (by decide) (by decide)
    (.response 500 ⟨none⟩) (by decide)).1

/-- C8 counterexample: a URL-based descriptor (no command/args) is wrapped
as a pre-shaped body and registration is attempted by
`MCPRouterClient.register_server_with_router` — a register call is issued
and no configuration error is raised, so "rejected rather than attempted"
fails for this variant. -/
theorem C8_counterexample :
    ((MCPRouterClient.init ⟨some ⟨some "http://r", none, none⟩,
        some [("u", ⟨none, none, [], none, some "http://direct", none,
          none⟩)]⟩).register_server_with_router "u" .transportError).2.1 =
      [.register (.preShaped "u"
        ⟨none, none, [], none, some "http://direct", none, none⟩)] ∧
    ((MCPRouterClient.init ⟨some ⟨some "http://r", none, none⟩,
        some [("u", ⟨none, none, [], none, some "http://direct", none,
          none⟩)]⟩).register_server_with_router "u" .transportError).2.2 =
      .ok none := by
  exact ⟨rfl, rfl⟩

/-- C8 amended: `MCPClient.register_server_with_router` rejects a
descriptor without a command/args pair with a synchronous `ValueError`
and no network call; `MCPRouterClient.register_server_with_router`
instead wraps such a config as a pre-shaped body and attempts the
registration (never raising a configuration error for it). -/
theorem C8_amended_url_rejection
    (ru : String) (cfg : Config) (n : String) (sc : ServerConfig)
    (hlook : sessLookup n cfg.serversD = some sc)
    (hnc : sc.command = none ∨ sc.args = none) :
    (∀ rr, registerCore (some ru) cfg n rr =
      (cfg, [], .error (.valueError
        "URL-based server configurations are not supported for registration"))) ∧
    (∀ rr, (routerRegisterCore true cfg n rr).2.1 =
        [.register (.preShaped n sc)] ∧
      ∀ e, (routerRegisterCore true cfg n rr).2.2 ≠ .error e) := by
  have hpay : (match sc.command, sc.args with
      | some cmd, some args => RegPayload.command n cmd args sc.env
      | _, _ => RegPayload.preShaped n sc) = RegPayload.preShaped n sc := by
    rcases hnc with h | h
    · cases hargs : sc.args with
      | none => simp [h, hargs]
      | some a => simp [h, hargs]
    · cases hcv : sc.command with
      | none => simp [h, hcv]
      | some cv => simp [h, hcv]
  constructor
  · intro rr
    rcases hnc with h | h
    · cases hargs : sc.args with
      | none => simp [registerCore, hlook, h, hargs]
      | some a => simp [registerCore, hlook, h, hargs]
    · cases hcv : sc.command with
      | none => simp [registerCore, hlook, h, hcv]
      | some cv => simp [registerCore, hlook, h, hcv]
  · intro rr
    simp only [routerRegisterCore, hlook, Bool.not_true, Bool.false_eq_true,
      if_false]
    rw [hpay]
    cases hreg : (connectorRegister (RegPayload.preShaped n sc) rr).2 with
    | none => exact ⟨by simp [connectorRegister], by intro e; simp⟩
    | some sid => exact ⟨by simp [connectorRegister], by intro e; simp⟩

/-- C8 witness: the amended statement at the URL-based descriptor. -/
theorem C8_amended_url_rejection_witness :
    registerCore (some "http://r")
      ⟨none, some [("u", ⟨none, none, [], none, some "http://direct", none,
        none⟩)]⟩ "u" .transportError =
      (⟨none, some [("u", ⟨none, none, [], none, some "http://direct", none,
        none⟩)]⟩,
       [], .error (.valueError
        "URL-based server configurations are not supported for registration")) := by
  exact (C8_amended_url_rejection "http://r"
    ⟨none, some [("u", ⟨none, none, [], none, some "http://direct", none,
      none⟩)]⟩ "u"
    ⟨none, none, [], none, some "http://direct", none, none⟩
    (by decide) (Or.inl rfl)).1 .transportError

theorem sessLookup_setServerId_some {cfg : Config} {n : String}
    {sc : ServerConfig} (hlook : sessLookup n cfg.serversD = some sc)
    (sid : Option String) :
    sessLookup n (cfg.setServerId n sid).serversD =
      some { sc with server_id := sid } := by
  rw [sessLookup_setServerId_self, hlook]
  rfl

theorem setServerId_mcpRouter (cfg : Config) (n : String)
    (sid : Option String) :
    (cfg.setServerId n sid).mcpRouter = cfg.mcpRouter := rfl

theorem registerCore_resolves {ru : String} {cfg : Config} {n : String}
    {sc : ServerConfig} {cmd : String} {args : List String} {st : Nat}
    {rs : List RegEntry} {sid : String}
    (hlook : sessLookup n cfg.serversD = some sc)
    (hcmd : sc.command = some cmd) (hargs : sc.args = some args)
    (hst : st = 200 ∨ st = 201) (hfind : findFirstSuccess rs = some sid) :
    registerCore (some ru) cfg n (.response st ⟨some rs⟩) =
      (cfg.setServerId n (some sid),
       [.register (.command n cmd args sc.env)], .ok (some sid)) := by
  simp only [registerCore, hlook, hcmd, hargs]
  rw [if_pos hst, if_pos (findFirstSuccess_length_pos hfind), hfind]

theorem startCore_with_id (ru : String) {cfg : Config} {n : String}
    {sc : ServerConfig} {sid : String}
    (hlook : sessLookup n cfg.serversD = some sc)
    (hsid : sc.server_id = some sid) (sr : HttpResult StartBody) :
    ∃ b, startCore (some ru) cfg n sr = ([.start sid], .ok b) := by
  cases sr with
  | transportError => exact ⟨false, by simp [startCore, hlook, hsid]⟩
  | response st body =>
    exact ⟨decide (st = 200) && body.success, by simp [startCore, hlook, hsid]⟩

/-- C4 counterexample: for an unregistered descriptor,
`MCPClient.create_session(auto_register=True)` issues exactly one register
and one start call, but the connector it builds is a plain
`HttpConnector` on the shared `/mcp` endpoint that carries no server id at
all — refuting "carrying the resolved server id" for this variant. -/
theorem C4_counterexample :
    ((MCPClient.init ⟨some ⟨some "http://r", none, none⟩,
        some [("s", ⟨some "npx", some ["-y"], [], none, none, none,
          none⟩)]⟩).create_session "s" true true
      ⟨.response 200 ⟨some [⟨"sid1", true⟩]⟩, .response 200 ⟨true⟩,
       .response 200 []⟩ true true).2.1 =
      [.register (.command "s" "npx" ["-y"] []), .start "sid1"] ∧
    ((MCPClient.init ⟨some ⟨some "http://r", none, none⟩,
        some [("s", ⟨some "npx", some ["-y"], [], none, none, none,
          none⟩)]⟩).create_session "s" true true
      ⟨.response 200 ⟨some [⟨"sid1", true⟩]⟩, .response 200 ⟨true⟩,
       .response 200 []⟩ true true).2.2 =
      .ok ⟨.http "http://r/mcp" [] none, true⟩ ∧
    (Connector.http "http://r/mcp" [] none).serverId = none := by
  exact ⟨rfl, rfl, rfl⟩

/-- C4 amended: for a descriptor with no cached id, both variants issue
exactly one register and one start call (the start call carrying the
freshly resolved id); the connector targets the router shared `/mcp`
endpoint in both variants, but only the `MCPRouterClient` variant's
connector carries the resolved server id — the `MCPClient` variant builds
a plain `HttpConnector` from url/headers/token without any server id. -/
theorem C4_amended_one_register_one_start
    (c : MCPClient) (r : MCPRouterClient) (n : String) (sc : ServerConfig)
    (cmd : String) (args : List String) (ru u : String) (env : NetEnv)
    (st : Nat) (rs : List RegEntry) (sid : String) (ai dOk : Bool)
    (sec : RouterSection)
    (hlook : sessLookup n c.config.serversD = some sc)
    (hsid : sc.server_id = none)
    (hcmd : sc.command = some cmd) (hargs : sc.args = some args)
    (hurl : c.router_url = some ru)
    (hreg : env.reg = .response st ⟨some rs⟩)
    (hst : st = 200 ∨ st = 201)
    (hfind : findFirstSuccess rs = some sid)
    (hrlook : sessLookup n r.config.serversD = some sc)
    (hrcon : r.router_connector.isSome = true)
    (hrsec : r.config.mcpRouter = some sec) (hru : sec.router_url = some u) :
    ((c.create_session n ai true env true dOk).2.1 =
       [.register (.command n cmd args sc.env), .start sid] ∧
     (c.create_session n ai true env true dOk).2.2 =
       .ok ⟨.http (ru ++ "/mcp") c.router_headers
              (c.config.mcpRouter.bind (fun s => s.auth_token)), dOk⟩ ∧
     (Connector.http (ru ++ "/mcp") c.router_headers
        (c.config.mcpRouter.bind (fun s => s.auth_token))).serverId = none) ∧
    ((r.create_session n ai true env true dOk).2.1 =
       [.register (.command n cmd args sc.env), .start sid] ∧
     ∃ tok hs,
       (r.create_session n ai true env true dOk).2.2 =
         .ok ⟨mkRouterConnector u (some sid) tok hs, dOk⟩ ∧
       (mkRouterConnector u (some sid) tok hs).serverId = some sid ∧
       (mkRouterConnector u (some sid) tok hs).endpoint =
         rstripSlash u ++ "/mcp") := by
  have hne : c.config.serversD.isEmpty = false := sessLookup_some_ne_nil hlook
  have hrne : r.config.serversD.isEmpty = false := sessLookup_some_ne_nil hrlook
  have hregeval : registerCore (some ru) c.config n env.reg =
      (c.config.setServerId n (some sid),
       [.register (.command n cmd args sc.env)], .ok (some sid)) := by
    rw [hreg]
    exact registerCore_resolves hlook hcmd hargs hst hfind
  have hlook2 : sessLookup n (c.config.setServerId n (some sid)).serversD =
      some { sc with server_id := some sid } :=
    sessLookup_setServerId_some hlook (some sid)
  obtain ⟨b, hb⟩ := startCore_with_id ru hlook2 rfl env.start
  have hphase : autoRegConfig (some ru) c.config n sc true env =
      (c.config.setServerId n (some sid),
       [.register (.command n cmd args sc.env), .start sid], .ok ()) := by
    simp only [autoRegConfig, hsid]
    rw [hregeval, hb]
    simp
  constructor
  · have hcs : c.create_session n ai true env true dOk =
        ({ { c with config := c.config.setServerId n (some sid) } with
            sessions := insertKey n
              ⟨.http (ru ++ "/mcp") c.router_headers
                (c.config.mcpRouter.bind (fun s => s.auth_token)), dOk⟩
              c.sessions,
            active_sessions :=
              if n ∈ c.active_sessions then c.active_sessions
              else c.active_sessions ++ [n] },
         [.register (.command n cmd args sc.env), .start sid],
         .ok ⟨.http (ru ++ "/mcp") c.router_headers
            (c.config.mcpRouter.bind (fun s => s.auth_token)), dOk⟩) := by
      simp only [MCPClient.create_session, hne, Bool.false_eq_true, if_false,
        hlook, hurl, hphase, MCPClient.finishSession, Bool.not_true,
        Bool.and_false, setServerId_mcpRouter]
    rw [hcs]
    exact ⟨rfl, rfl, rfl⟩
  · obtain ⟨con, hcon⟩ := Option.isSome_iff_exists.mp hrcon
    have hreg2 : routerRegisterCore true r.config n env.reg =
        (r.config.setServerId n (some sid),
         [.register (.command n cmd args sc.env)], .ok (some sid)) := by
      rw [hreg]
      simp only [routerRegisterCore, hrlook, Bool.not_true,
        Bool.false_eq_true, if_false, hcmd, hargs, connectorRegister]
      rw [if_pos hst, if_pos (findFirstSuccess_length_pos hfind), hfind]
    have hrlook2 : sessLookup n
        (r.config.setServerId n (some sid)).serversD =
        some { sc with server_id := some sid } :=
      sessLookup_setServerId_some hrlook (some sid)
    have hstart2 : routerStartCore true (r.config.setServerId n (some sid))
        n env = (r.config.setServerId n (some sid), [.start sid],
          .ok (connectorStart sid env.start).2) := by
      simp only [routerStartCore, hrlook2, Bool.not_true, Bool.false_eq_true,
        if_false]
      simp [connectorStart]
    have hphase2 : routerAutoRegConfig true r.config n sc true env =
        (r.config.setServerId n (some sid),
         [.register (.command n cmd args sc.env), .start sid],
         .ok (some sid)) := by
      simp only [routerAutoRegConfig, hsid, Option.isNone_none,
        Bool.and_true, if_true]
      rw [hreg2, hstart2]
      simp
    have hbind : (r.config.setServerId n (some sid)).mcpRouter.bind
        (fun s => s.router_url) = some u := by
      rw [setServerId_mcpRouter, hrsec]
      simpa using hru
    have hrcs : r.create_session n ai true env true dOk =
        ({ { r with config := r.config.setServerId n (some sid) } with
            sessions := insertKey n
              ⟨mkRouterConnector u (some sid)
                (match sc.auth_token with
                  | some t => some t
                  | none => (r.config.setServerId n
                      (some sid)).mcpRouter.bind (fun s => s.auth_token))
                (pyOrHeaders sc.headers
                  ((r.config.setServerId n (some sid)).mcpRouter.bind
                    (fun s => s.headers))), dOk⟩ r.sessions,
            active_sessions :=
              if n ∈ r.active_sessions then r.active_sessions
              else r.active_sessions ++ [n] },
         [.register (.command n cmd args sc.env), .start sid],
         .ok ⟨mkRouterConnector u (some sid)
            (match sc.auth_token with
              | some t => some t
              | none => (r.config.setServerId n
                  (some sid)).mcpRouter.bind (fun s => s.auth_token))
            (pyOrHeaders sc.headers
              ((r.config.setServerId n (some sid)).mcpRouter.bind
                (fun s => s.headers))), dOk⟩) := by
      simp only [MCPRouterClient.create_session, hrne, Bool.false_eq_true,
        if_false, hrlook, hcon, hphase2, hbind,
        MCPRouterClient.finishSession, Bool.not_true, Bool.and_false]
    rw [hrcs]
    refine ⟨rfl, _, _, rfl, ?_, ?_⟩
    · simp [mkRouterConnector, Connector.serverId]
    · simp [mkRouterConnector, Connector.endpoint]

/-- C4 witness: the amended statement at a concrete pair of clients. -/
theorem C4_amended_one_register_one_start_witness :
    ((MCPClient.init ⟨some ⟨some "http://r", none, none⟩,
        some [("s", ⟨some "npx", some ["-y"], [], none, none, none,
          none⟩)]⟩).create_session "s" true true
      ⟨.response 200 ⟨some [⟨"sid1", true⟩]⟩, .response 200 ⟨true⟩,
       .response 200 []⟩ true true).2.1 =
      [.register (.command "s" "npx" ["-y"] []), .start "sid1"] := by
  exact (C4_amended_one_register_one_start
    (MCPClient.init ⟨some ⟨some "http://r", none, none⟩,
      some [("s", ⟨some "npx", some ["-y"], [], none, none, none, none⟩)]⟩)
    (MCPRouterClient.init ⟨some ⟨some "http://r", none, none⟩,
      some [("s", ⟨some "npx", some ["-y"], [], none, none, none, none⟩)]⟩)
    "s" ⟨some "npx", some ["-y"], [], none, none, none, none⟩
    "npx" ["-y"] "http://r" "http://r"
    ⟨.response 200 ⟨some [⟨"sid1", true⟩]⟩, .response 200 ⟨true⟩,
     .response 200 []⟩
    200 [⟨"sid1", true⟩] "sid1" true true
    ⟨some "http://r", none, none⟩
    (by decide) (by decide) (by decide) (by decide) (by decide) (by decide)
    (Or.inl rfl) (by decide) (by decide) (by decide) (by decide)
    (by decide)).1.1

/-- C7: for a descriptor with a cached server id, session creation with
auto_register fetches the remote list and searches it for that id; if an
entry is found whose status is not "online" a start call is issued; if it
is online nothing more is called; if no entry carries the id, a full
register-then-start sequence runs and the cached id is replaced by the
newly resolved one. -/
theorem C7_cached_id_reconciliation
    (c : MCPClient) (n : String) (sc : ServerConfig) (sid : String)
    (env : NetEnv) (ai dOk : Bool) (ru : String) (lst : List RemoteServer)
    (hlook : sessLookup n c.config.serversD = some sc)
    (hsid : sc.server_id = some sid)
    (hurl : c.router_url = some ru)
    (hlisting : env.listing = .response 200 lst) :
    (∀ rsv, findRemote sid lst = some rsv → rsv.status ≠ some "online" →
       (c.create_session n ai true env true dOk).2.1 =
         [.listServers, .start sid]) ∧
    (∀ rsv, findRemote sid lst = some rsv → rsv.status = some "online" →
       (c.create_session n ai true env true dOk).2.1 = [.listServers]) ∧
    (findRemote sid lst = none →
      ∀ cmd args st rs newId,
        sc.command = some cmd → sc.args = some args →
        env.reg = .response st ⟨some rs⟩ → (st = 200 ∨ st = 201) →
        findFirstSuccess rs = some newId →
        (c.create_session n ai true env true dOk).2.1 =
          [.listServers, .register (.command n cmd args sc.env),
           .start newId] ∧
        (sessLookup n
          (c.create_session n ai true env true dOk).1.config.serversD).map
            (fun x => x.server_id) = some (some newId)) := by
  have hne : c.config.serversD.isEmpty = false := sessLookup_some_ne_nil hlook
  have hlisteval : listCore (some ru) env.listing = ([.listServers], .ok lst) := by
    rw [hlisting]
    simp [listCore]
  refine ⟨?_, ?_, ?_⟩
  · intro rsv hfound hnon
    obtain ⟨b, hb⟩ := startCore_with_id ru hlook hsid env.start
    have hphase : autoRegConfig (some ru) c.config n sc true env =
        (c.config, [.listServers, .start sid], .ok ()) := by
      simp only [autoRegConfig, hsid, if_true, hlisteval, hfound, hb]
      rw [if_pos hnon]
      simp
    simp only [MCPClient.create_session, hne, Bool.false_eq_true, if_false,
      hlook, hurl, hphase, MCPClient.finishSession, Bool.not_true,
      Bool.and_false]
  · intro rsv hfound hon
    have hphase : autoRegConfig (some ru) c.config n sc true env =
        (c.config, [.listServers], .ok ()) := by
      simp only [autoRegConfig, hsid, if_true, hlisteval, hfound]
      rw [if_neg (by simp [hon])]
    simp only [MCPClient.create_session, hne, Bool.false_eq_true, if_false,
      hlook, hurl, hphase, MCPClient.finishSession, Bool.not_true,
      Bool.and_false]
  · intro hnotfound cmd args st rs newId hcmd hargs hreg hst hfind
    have hregeval : registerCore (some ru) c.config n env.reg =
        (c.config.setServerId n (some newId),
         [.register (.command n cmd args sc.env)], .ok (some newId)) := by
      rw [hreg]
      exact registerCore_resolves hlook hcmd hargs hst hfind
    have hlook2 : sessLookup n
        (c.config.setServerId n (some newId)).serversD =
        some { sc with server_id := some newId } :=
      sessLookup_setServerId_some hlook (some newId)
    obtain ⟨b, hb⟩ := startCore_with_id ru hlook2 rfl env.start
    have hphase : autoRegConfig (some ru) c.config n sc true env =
        (c.config.setServerId n (some newId),
         [.listServers, .register (.command n cmd args sc.env),
          .start newId], .ok ()) := by
      simp only [autoRegConfig, hsid, if_true, hlisteval, hnotfound,
        hregeval, hb]
      simp
    have hcs : (c.create_session n ai true env true dOk).2.1 =
          [.listServers, .register (.command n cmd args sc.env),
           .start newId] ∧
        (c.create_session n ai true env true dOk).1.config =
          c.config.setServerId n (some newId) := by
      simp only [MCPClient.create_session, hne, Bool.false_eq_true, if_false,
        hlook, hurl, hphase, MCPClient.finishSession, Bool.not_true,
        Bool.and_false]
      refine ⟨?_, ?_⟩ <;> trivial
    refine ⟨hcs.1, ?_⟩
    rw [hcs.2, hlook2]
    rfl

/-- C7 witness: the reconciliation at a concrete client whose cached id
is found remotely with a non-online status. -/
theorem C7_cached_id_reconciliation_witness :
    ((MCPClient.init ⟨some ⟨some "http://r", none, none⟩,
        some [("s", ⟨some "npx", some ["-y"], [], some "sid0", none, none,
          none⟩)]⟩).create_session "s" true true
      ⟨.transportError, .response 200 ⟨true⟩,
       .response 200 [⟨some "sid0", some "offline"⟩]⟩ true true).2.1 =
      [.listServers, .start "sid0"] := by
  exact (C7_cached_id_reconciliation
    (MCPClient.init ⟨some ⟨some "http://r", none, none⟩,
      some [("s", ⟨some "npx", some ["-y"], [], some "sid0", none, none,
        none⟩)]⟩)
    "s" ⟨some "npx", some ["-y"], [], some "sid0", none, none, none⟩
    "sid0"
    ⟨.transportError, .response 200 ⟨true⟩,
     .response 200 [⟨some "sid0", some "offline"⟩]⟩
    true true "http://r" [⟨some "sid0", some "offline"⟩]
    (by decide) (by decide) (by decide) (by decide)).1
    ⟨some "sid0", some "offline"⟩ (by decide) (by decide)

end Mru
